import Mathlib

/-!
Verification development for the Ocient Grafana datasource plugin.

The backend (Go, package `plugin`) executes SQL against the Ocient REST
endpoint and converts the row-oriented JSON `collection` response into
typed columnar data frames (`convertToDataFrames`, `executeQuery`,
`query`).  The frontend (TypeScript, `datasource.ts` and
`QueryEditor.tsx`) builds SQL text from structured selections and
implements the paginated distinct-value browsing protocol
(`getDistinctValueCount`, `getDistinctColumnValues`, `buildQuery`).

This file shallowly embeds those functions and proves the spec's claims
about them.  JSON scalars decoded from the wire are modelled by the
closed variant `JValue` (Go `interface\x7b\x7d` after `json.Unmarshal`:
`float64`, `string`, `bool`, or `nil`); numbers are carried as `ℚ`,
which is adequate because the embedded code never computes with them,
it only inspects their dynamic type tag.
-/

/-- A decoded JSON scalar as it appears in a row of the `collection`
response: Go `float64`, `string`, `bool`, or `nil` (JSON null and also
the value of a missing map key). -/
inductive JValue where
  | num (q : ℚ)
  | str (s : String)
  | bool (b : Bool)
  | null
deriving DecidableEq

/-- A row of the response: Go `map[string]interface\x7b\x7d`, modelled as an
association list from column name to scalar (first binding wins). -/
abbrev Row := List (String × JValue)

/-- Go map indexing `row[col]`: a missing key yields the zero
`interface\x7b\x7d`, i.e. `nil`, which we model as `JValue.null`. -/
def lookupVal (row : Row) (col : String) : JValue :=
  (row.lookup col).getD JValue.null

/-- The key set of a row, in first-seen order.  Go map iteration yields
each distinct key exactly once; `dedup` fixes a deterministic order. -/
def rowKeys (row : Row) : List String :=
  (row.map Prod.fst).dedup

/-! ### Go `time.Parse` for the three layouts used by the plugin

`convertToDataFrames` parses timestamp strings with Go's `time.Parse`
against, in order: the Ocient native layout
`2006-01-02 15:04:05.999999999` (fractional seconds optional, up to
9 digits), `time.RFC3339`, and the bare layout `2006-01-02 15:04:05`.
We embed the parser for each layout: fixed-width decimal fields,
literal separators, full consumption of the input, and Go's range
validation of month, day (month-length and leap-year aware), hour,
minute and second. -/

/-- Result of a successful Go `time.Parse`: the wall-clock fields plus
the zone offset in minutes (0 for layouts without a zone and for `Z`). -/
structure GoTime where
  year : Nat
  month : Nat
  day : Nat
  hour : Nat
  minute : Nat
  second : Nat
  nanos : Nat
  offsetMinutes : Int
deriving DecidableEq

/-- Go's zero `time.Time\x7b\x7d`: January 1, year 1, 00:00:00 UTC. -/
def zeroTime : GoTime := ⟨1, 1, 1, 0, 0, 0, 0, 0⟩

/-- Numeric value of a decimal digit character. -/
def digitVal (c : Char) : Nat := c.toNat - '0'.toNat

/-- Parse exactly two decimal digits. -/
def takeNum2 : List Char → Option (Nat × List Char)
  | c1 :: c2 :: rest =>
    if c1.isDigit && c2.isDigit then
      some (digitVal c1 * 10 + digitVal c2, rest)
    else none
  | _ => none

/-- Parse exactly four decimal digits (the `2006` year field). -/
def takeNum4 : List Char → Option (Nat × List Char)
  | c1 :: c2 :: c3 :: c4 :: rest =>
    if c1.isDigit && c2.isDigit && c3.isDigit && c4.isDigit then
      some (digitVal c1 * 1000 + digitVal c2 * 100 + digitVal c3 * 10 + digitVal c4, rest)
    else none
  | _ => none

/-- Consume one expected literal character. -/
def expectCh (c : Char) : List Char → Option (List Char)
  | c' :: rest => if c' = c then some rest else none
  | [] => none

/-- Numeric value of a digit string. -/
def natOfDigits (ds : List Char) : Nat :=
  ds.foldl (fun acc c => acc * 10 + digitVal c) 0

/-- Optional fractional-seconds field of the `.999999999` layout
element: absent, or a dot followed by 1 to 9 digits, scaled to
nanoseconds. -/
def parseFracOpt : List Char → Option (Nat × List Char)
  | '.' :: rest =>
    let ds := rest.takeWhile Char.isDigit
    if ds.length = 0 || ds.length > 9 then none
    else some (natOfDigits ds * 10 ^ (9 - ds.length), rest.drop ds.length)
  | cs => some (0, cs)

/-- Is `y` a leap year (proleptic Gregorian, as Go computes it)? -/
def isLeapYear (y : Nat) : Bool :=
  y % 4 = 0 && (y % 100 ≠ 0 || y % 400 = 0)

/-- Number of days in a month, as Go's `daysIn`. -/
def daysIn (y m : Nat) : Nat :=
  if m = 2 then (if isLeapYear y then 29 else 28)
  else if m = 4 || m = 6 || m = 9 || m = 11 then 30
  else 31

/-- Go's range validation of a parsed date. -/
def validDate (y m d : Nat) : Bool :=
  1 ≤ m && m ≤ 12 && 1 ≤ d && d ≤ daysIn y m

/-- Go's range validation of a parsed time of day. -/
def validTime (h mi s : Nat) : Bool :=
  h ≤ 23 && mi ≤ 59 && s ≤ 59

/-- Parse the `2006-01-02` date part. -/
def parseDate (cs : List Char) : Option (Nat × Nat × Nat × List Char) := do
  let (y, cs) ← takeNum4 cs
  let cs ← expectCh '-' cs
  let (m, cs) ← takeNum2 cs
  let cs ← expectCh '-' cs
  let (d, cs) ← takeNum2 cs
  pure (y, m, d, cs)

/-- Parse the `15:04:05` time-of-day part. -/
def parseTOD (cs : List Char) : Option (Nat × Nat × Nat × List Char) := do
  let (h, cs) ← takeNum2 cs
  let cs ← expectCh ':' cs
  let (mi, cs) ← takeNum2 cs
  let cs ← expectCh ':' cs
  let (s, cs) ← takeNum2 cs
  pure (h, mi, s, cs)

/-- Parse the `Z07:00` zone part of `time.RFC3339`: `Z`, or a signed
`hh:mm` offset (hour at most 23, minute at most 59). -/
def parseZone : List Char → Option (Int × List Char)
  | 'Z' :: rest => some (0, rest)
  | sign :: cs =>
    if sign = '+' || sign = '-' then do
      let (h, cs) ← takeNum2 cs
      let cs ← expectCh ':' cs
      let (mi, cs) ← takeNum2 cs
      if h ≤ 23 && mi ≤ 59 then
        let mag : Int := h * 60 + mi
        pure (if sign = '+' then mag else -mag, cs)
      else none
    else none
  | [] => none

/-- Go `time.Parse` with the Ocient native layout
`2006-01-02 15:04:05.999999999`: date, a space, time of day, and an
optional fractional-seconds component of up to 9 digits. -/
def parseOcientTS (s : String) : Option GoTime := do
  let cs := s.toList
  let (y, m, d, cs) ← parseDate cs
  let cs ← expectCh ' ' cs
  let (h, mi, se, cs) ← parseTOD cs
  let (ns, cs) ← parseFracOpt cs
  if cs = [] && validDate y m d && validTime h mi se then
    pure ⟨y, m, d, h, mi, se, ns, 0⟩
  else none

/-- Go `time.Parse` with `time.RFC3339`: date, `T`, time of day, an
optional fractional-seconds component, and a zone (`Z` or `±hh:mm`). -/
def parseRFC3339 (s : String) : Option GoTime := do
  let cs := s.toList
  let (y, m, d, cs) ← parseDate cs
  let cs ← expectCh 'T' cs
  let (h, mi, se, cs) ← parseTOD cs
  let (ns, cs) ← parseFracOpt cs
  let (off, cs) ← parseZone cs
  if cs = [] && validDate y m d && validTime h mi se then
    pure ⟨y, m, d, h, mi, se, ns, off⟩
  else none

/-- Go `time.Parse` with the bare layout `2006-01-02 15:04:05`:
date, a space, time of day, nothing further. -/
def parseBareTS (s : String) : Option GoTime := do
  let cs := s.toList
  let (y, m, d, cs) ← parseDate cs
  let cs ← expectCh ' ' cs
  let (h, mi, se, cs) ← parseTOD cs
  if cs = [] && validDate y m d && validTime h mi se then
    pure ⟨y, m, d, h, mi, se, 0, 0⟩
  else none

/-! ### `convertToDataFrames` (Go, `pkg/plugin`)

The Go function classifies each column from the first row's value,
then fills per-column typed slices by coercing every row's cell to the
column's fixed type, never failing.  The Go code fills row-major
(outer loop over rows, inner over columns); since each iteration
appends exactly one value to exactly one column's slice and columns do
not interact, we build each column by a map over the rows. -/

/-- The semantic column types assigned by `convertToDataFrames`
(the strings `"timestamp"`, `"float64"`, `"string"`, `"bool"` of the
`columnTypes` map). -/
inductive ColumnType where
  | timestamp
  | float64
  | string
  | bool
deriving DecidableEq

/-- Column classification from the first row's value
(lines 209-263): a string is probed by the three timestamp formats in
order; otherwise `float64` stays float, `bool` stays bool, and every
other dynamic type (including `nil`) defaults to string. -/
def classifyValue (v : JValue) : ColumnType :=
  match v with
  | .str s =>
    if (parseOcientTS s).isSome then .timestamp
    else if (parseRFC3339 s).isSome then .timestamp
    else if (parseBareTS s).isSome then .timestamp
    else .string
  | .num _ => .float64
  | .bool _ => .bool
  | .null => .string

/-- The fill-phase timestamp parse chain (lines 296-314): the Ocient
native format first, then RFC 3339, then the bare format; first
success wins. -/
def parseTimestampCell (s : String) : Option GoTime :=
  match parseOcientTS s with
  | some t => some t
  | none =>
    match parseRFC3339 s with
    | some t => some t
    | none => parseBareTS s

/-- Embedding of Go `fmt.Sprintf("%v", val)` on a decoded JSON scalar,
the generic formatter used when a string column meets a non-string
cell.  The rendering of a `float64` is approximated by the decimal
rendering of the carrier rational; no claim inspects it. -/
def goFormat (v : JValue) : String :=
  match v with
  | .num q => if q.den = 1 then toString q.num else toString q
  | .str s => s
  | .bool b => if b then "true" else "false"
  | .null => "<nil>"

/-- Cell coercion for a `float64` column (lines 271-277). -/
def coerceFloat (v : JValue) : ℚ :=
  match v with
  | .num q => q
  | _ => 0

/-- Cell coercion for a `string` column (lines 278-284). -/
def coerceString (v : JValue) : String :=
  match v with
  | .str s => s
  | _ => goFormat v

/-- Cell coercion for a `bool` column (lines 285-291). -/
def coerceBool (v : JValue) : Bool :=
  match v with
  | .bool b => b
  | _ => false

/-- Cell coercion for a `timestamp` column (lines 292-320): a string
cell runs the parse chain and falls back to the zero time; any
non-string cell is the zero time. -/
def coerceTimestamp (v : JValue) : GoTime :=
  match v with
  | .str s =>
    match parseTimestampCell s with
    | some t => t
    | none => zeroTime
  | _ => zeroTime

/-- A column's filled, homogeneously typed value slice (the typed
slices held in the `columnValues` map and passed to `data.NewField`). -/
inductive ColValues where
  | floats (vs : List ℚ)
  | strings (vs : List String)
  | bools (vs : List Bool)
  | times (vs : List GoTime)
deriving DecidableEq

/-- Number of values in a column. -/
def colLength : ColValues → Nat
  | .floats vs => vs.length
  | .strings vs => vs.length
  | .bools vs => vs.length
  | .times vs => vs.length

/-- Which semantic type a filled column carries. -/
def colKind : ColValues → ColumnType
  | .floats _ => .float64
  | .strings _ => .string
  | .bools _ => .bool
  | .times _ => .timestamp

/-- Fill one column: coerce every row's cell to the column's type. -/
def buildColumn (ty : ColumnType) (cells : List JValue) : ColValues :=
  match ty with
  | .float64 => .floats (cells.map coerceFloat)
  | .string => .strings (cells.map coerceString)
  | .bool => .bools (cells.map coerceBool)
  | .timestamp => .times (cells.map coerceTimestamp)

/-- A Grafana data frame: a name and named typed fields. -/
structure Frame where
  name : String
  fields : List (String × ColValues)
deriving DecidableEq

/-- Embedding of `convertToDataFrames` (lines 189-344).  An empty
result set yields the empty `response` frame; otherwise the columns
are the keys of the first row, each classified from the first row's
value and filled from every row.  The Go signature returns
`(*data.Frame, error)` and never returns a non-nil error. -/
def convertToDataFrames (results : List Row) : Except String Frame :=
  match results with
  | [] => .ok ⟨"response", []⟩
  | first :: _ =>
    let columns := rowKeys first
    .ok ⟨"response",
      columns.map (fun col =>
        (col, buildColumn (classifyValue (lookupVal first col))
          (results.map (fun r => lookupVal r col))))⟩

/-! ### `executeQuery` and `query` (Go, `pkg/plugin`)

The network transport and JSON decoding are external; we embed the
status check applied to the decoded `CollectionResponse`
(lines 179-186) and the error message the `query` wrapper builds from
a non-success status (lines 364-375). -/

/-- The `status` object of an Ocient API response. -/
structure OcientStatus where
  reason : String
  sql_state : String
  vendor_code : Int
deriving DecidableEq

/-- The decoded `collection`-format response body. -/
structure CollectionResponse where
  query_id : String
  status : OcientStatus
  data : List Row

/-- The Go error message `executeQuery` formats for a non-success
status. -/
def execErrorMsg (st : OcientStatus) : String :=
  "query error: " ++ st.reason ++ " (SQL state: " ++ st.sql_state ++
    ", vendor code: " ++ toString st.vendor_code ++ ")"

/-- The `(rows, status, err)` triple `executeQuery` returns once the
response body is decoded. -/
structure ExecResult where
  rows : List Row
  status : OcientStatus
  errMsg : Option String
deriving DecidableEq

/-- Embedding of the status check of `executeQuery` (lines 179-185):
any `sql_state` other than `"00000"` is an error carrying the remote
status verbatim and no data rows; `"00000"` returns the data. -/
def executeQueryOutcome (resp : CollectionResponse) : ExecResult :=
  if resp.status.sql_state ≠ "00000" then
    ⟨[], resp.status, some (execErrorMsg resp.status)⟩
  else
    ⟨resp.data, resp.status, none⟩

/-- The detailed message the `query` wrapper surfaces to Grafana when
`executeQuery` failed with a remote status (lines 367-371). -/
def queryFailureMsg (st : OcientStatus) : String :=
  "Query failed: " ++ st.reason ++ " (SQL state: " ++ st.sql_state ++
    ", vendor code: " ++ toString st.vendor_code ++ ")"

/-! ### Frontend distinct-value browsing (`src/datasource.ts`)

`getDistinctValueCount` and `getDistinctColumnValues` issue SQL
through `this.query`, which resolves to a list of data frames or
throws.  We model the backend round trip by an executor
`exec : String → Except String (List TSFrame)` mapping query text to
the resolved `response.data` (a thrown rejection is `Except.error`).
Each embedded function additionally records, in order, the query texts
it actually issued. -/

/-- A field of a frame as the frontend sees it: a name and loosely
typed values. -/
structure TSField where
  name : String
  values : List JValue
deriving DecidableEq

/-- A data frame as the frontend sees it. -/
structure TSFrame where
  fields : List TSField
deriving DecidableEq

/-- The backend round trip: query text to resolved `response.data`. -/
abbrev Exec := String → Except String (List TSFrame)

/-- JavaScript `String(value)` on a decoded scalar (the `.map(value =>
String(value))` coercion).  Number rendering is approximated by the
decimal rendering of the carrier rational; no claim inspects it. -/
def jsString (v : JValue) : String :=
  match v with
  | .str s => s
  | .num q => if q.den = 1 then toString q.num else toString q
  | .bool b => if b then "true" else "false"
  | .null => "null"

/-- JavaScript `x || d` on an optional number: `undefined` and the
falsy `0` both yield the default. -/
def jsOrNat (o : Option Nat) (d : Nat) : Nat :=
  match o with
  | some n => if n = 0 then d else n
  | none => d

/-- JavaScript `x || ''` on an optional string. -/
def jsOrStr (o : Option String) : String :=
  match o with
  | some s => s
  | none => ""

/-- The JavaScript numeric comparison `n < q` of a nonnegative
integer against a decoded number, computed by cross-multiplication on
the rational's numerator and denominator so that it evaluates by
kernel reduction. -/
def natLtRat (n : Nat) (q : ℚ) : Bool :=
  decide ((n : Int) * (q.den : Int) < q.num)

/-- The count query text of `getDistinctValueCount` (line 208). -/
def countQueryText (schema table column : String) : String :=
  "SELECT COUNT(DISTINCT " ++ column ++ ") AS value_count FROM " ++
    schema ++ "." ++ table ++ " WHERE " ++ column ++ " IS NOT NULL"

/-- The value query text of `getDistinctColumnValues`
(lines 256-266), with the template literal's embedded newlines and
spacing, the optional case-insensitive LIKE filter, and the ORDER
BY/LIMIT/OFFSET tail. -/
def valueQueryText (schema table column : String) (limit offset : Nat)
    (searchPattern : String) : String :=
  "SELECT DISTINCT " ++ column ++ " \n                     FROM " ++
    schema ++ "." ++ table ++ " \n                     WHERE " ++ column ++
    " IS NOT NULL" ++
    (if searchPattern ≠ "" then
      " AND LOWER(CAST(" ++ column ++ " AS VARCHAR)) LIKE LOWER('%" ++
        searchPattern ++ "%')"
    else "") ++
    " ORDER BY " ++ column ++ " ASC \n                  LIMIT " ++
    toString limit ++ " OFFSET " ++ toString offset

/-- Embedding of `getDistinctValueCount` (lines 201-228), returning
the count together with the issued query texts.  Empty schema, table
or column short-circuits to 0 with no query; a rejected query, a
response without frames or fields, or a first cell that is not a
number all yield 0. -/
def getDistinctValueCount (exec : Exec) (schema table column : String) :
    ℚ × List String :=
  if schema = "" ∨ table = "" ∨ column = "" then (0, [])
  else
    let qt := countQueryText schema table column
    match exec qt with
    | .error _ => (0, [qt])
    | .ok frames =>
      match frames with
      | [] => (0, [qt])
      | frame :: _ =>
        match frame.fields with
        | [] => (0, [qt])
        | field :: _ =>
          match field.values with
          | [] => (0, [qt])
          | v :: _ =>
            match v with
            | .num q => (q, [qt])
            | _ => (0, [qt])

/-- The page returned by a distinct-value browsing request. -/
structure DistinctValuePage where
  values : List String
  totalCount : ℚ
  hasMore : Bool
deriving DecidableEq

/-- The options object of `getDistinctColumnValues`. -/
structure BrowseOptions where
  limit : Option Nat
  offset : Option Nat
  searchPattern : Option String
deriving DecidableEq

/-- A browsing result together with the query texts issued, in order. -/
structure BrowseOutcome where
  page : DistinctValuePage
  issued : List String
deriving DecidableEq

/-- The effective limit: `options?.limit || 100`. -/
def effLimit (options : Option BrowseOptions) : Nat :=
  jsOrNat (options.bind (·.limit)) 100

/-- The effective offset: `options?.offset || 0`. -/
def effOffset (options : Option BrowseOptions) : Nat :=
  jsOrNat (options.bind (·.offset)) 0

/-- The effective search pattern: `options?.searchPattern || ''`. -/
def effPattern (options : Option BrowseOptions) : String :=
  jsOrStr (options.bind (·.searchPattern))

/-- Embedding of `getDistinctColumnValues` (lines 234-296).  Empty
schema, table or column short-circuits without issuing any query.
Otherwise the unfiltered count query runs first (through
`getDistinctValueCount`), then the value query; on a resolved
response with at least one frame and field, the first field's values
are coerced to strings and `hasMore = offset + values.length <
totalCount`; any failure of the value query returns an empty page that
keeps the fetched `totalCount` and `hasMore = false`. -/
def getDistinctColumnValues (exec : Exec) (schema table column : String)
    (options : Option BrowseOptions) : BrowseOutcome :=
  if schema = "" ∨ table = "" ∨ column = "" then ⟨⟨[], 0, false⟩, []⟩
  else
    let limit := effLimit options
    let offset := effOffset options
    let searchPattern := effPattern options
    let totalCount := (getDistinctValueCount exec schema table column).1
    let countIssued := (getDistinctValueCount exec schema table column).2
    let qt := valueQueryText schema table column limit offset searchPattern
    let issued := countIssued ++ [qt]
    match exec qt with
    | .error _ => ⟨⟨[], totalCount, false⟩, issued⟩
    | .ok frames =>
      match frames with
      | [] => ⟨⟨[], totalCount, false⟩, issued⟩
      | frame :: _ =>
        match frame.fields with
        | [] => ⟨⟨[], totalCount, false⟩, issued⟩
        | field :: _ =>
          let values := field.values.map jsString
          ⟨⟨values, totalCount, natLtRat (offset + values.length) totalCount⟩,
            issued⟩

/-! ### `buildQuery` (frontend, `QueryEditor.tsx`, lines 408-440)

Pure string assembly of the structured selections.  The function only
acts when both schema and table are truthy (non-empty); we return
`none` otherwise.  The designated time-series column is a string state
variable whose truthiness is non-emptiness. -/

/-- A structured WHERE clause of the query builder. -/
structure WhereClause where
  column : String
  operator : String
  value : String
deriving DecidableEq

/-- The time-range filter clause appended for a time-series column
(line 430), macros unresolved. -/
def timeFilterClause (ts : String) : String :=
  ts ++ " >= $__timeFrom() AND " ++ ts ++ " <= $__timeTo() ORDER BY " ++
    ts ++ " ASC"

/-- One rendered WHERE clause (lines 424-426). -/
def renderWhereClause (c : WhereClause) : String :=
  c.column ++ " " ++ c.operator ++ " '" ++ c.value ++ "'"

/-- Embedding of `buildQuery`: wildcard for an empty column
selection, clauses joined by ` AND `, optional trailing time filter. -/
def buildQuery (schema table : String) (selectedColumns : List String)
    (whereClauses : List WhereClause) (timeseriesColumn : String) :
    Option String :=
  if schema ≠ "" ∧ table ≠ "" then
    let columnsStr :=
      if selectedColumns.length > 0 then String.intercalate ", " selectedColumns
      else "*"
    let sql := "SELECT " ++ columnsStr ++ " FROM " ++ schema ++ "." ++ table
    let sql :=
      if whereClauses.length > 0 ∨ timeseriesColumn ≠ "" then
        let parts := whereClauses.map renderWhereClause
        let parts :=
          if timeseriesColumn ≠ "" then parts ++ [timeFilterClause timeseriesColumn]
          else parts
        sql ++ " WHERE " ++ String.intercalate " AND " parts
      else sql
    some sql
  else none

/-! ### Shared lemmas and concrete inputs -/

theorem colLength_buildColumn (ty : ColumnType) (cells : List JValue) :
    colLength (buildColumn ty cells) = cells.length := by
  cases ty <;> simp [buildColumn, colLength]

theorem colKind_buildColumn (ty : ColumnType) (cells : List JValue) :
    colKind (buildColumn ty cells) = ty := by
  cases ty <;> rfl

theorem convertToDataFrames_cons (first : Row) (rest : List Row) :
    convertToDataFrames (first :: rest) =
      Except.ok ⟨"response", (rowKeys first).map (fun col =>
        (col, buildColumn (classifyValue (lookupVal first col))
          ((first :: rest).map (fun r => lookupVal r col))))⟩ := rfl

/-- A first row with a float column and a string column. -/
def demoRow1 : Row := [("a", .num 1), ("b", .str "x")]

/-- A second row that misses key `b` and holds a string under the
float column `a`. -/
def demoRow2 : Row := [("a", .str "oops")]

/-- The frame `convertToDataFrames` produces from
`[demoRow1, demoRow2]`. -/
def demoFrame : Frame :=
  ⟨"response", [("a", .floats [1, 0]), ("b", .strings ["x", "<nil>"])]⟩

/-! ### The claims -/

/-- C1: For every non-empty RowSet, the produced frame has exactly one
field per distinct key of the first row (the field names are the first
row's distinct keys, without duplicates), and every field's value list
has length equal to the number of rows, even when later rows miss keys
or hold values of a different dynamic type. -/
theorem convert_frame_shape (first : Row) (rest : List Row) (fr : Frame)
    (h : convertToDataFrames (first :: rest) = Except.ok fr) :
    fr.fields.map Prod.fst = rowKeys first ∧
    (fr.fields.map Prod.fst).Nodup ∧
    ∀ p ∈ fr.fields, colLength p.2 = (first :: rest).length := by
  rw [convertToDataFrames_cons] at h
  injection h with h'
  have hmap : fr.fields.map Prod.fst = rowKeys first := by
    rw [← h']
    simp only [Frame.fields, List.map_map]
    exact List.map_id' _
  refine ⟨hmap, ?_, ?_⟩
  · rw [hmap, rowKeys]
    exact List.nodup_dedup _
  · intro p hp
    rw [← h'] at hp
    simp only [List.mem_map] at hp
    obtain ⟨col, hcol, rfl⟩ := hp
    simp [colLength_buildColumn]

/-- Witness for C1 at a concrete two-row RowSet whose second row
misses a key and mismatches a type. -/
theorem convert_frame_shape_witness :
    demoFrame.fields.map Prod.fst = rowKeys demoRow1 ∧
    (demoFrame.fields.map Prod.fst).Nodup ∧
    ∀ p ∈ demoFrame.fields, colLength p.2 = (demoRow1 :: [demoRow2]).length :=
  convert_frame_shape demoRow1 [demoRow2] demoFrame rfl

/-- C2: The timestamp normalizer tries the native Ocient format, then
RFC 3339, then the bare format, first success winning; the
classification site and the per-row parsing site agree on this chain;
and `"2024-01-15 10:30:00.123456789"` classifies as Timestamp via the
native-format branch. -/
theorem timestamp_chain_order :
    (∀ s : String, classifyValue (.str s) = ColumnType.timestamp ↔
      (parseTimestampCell s).isSome = true) ∧
    (∀ s t, parseOcientTS s = some t → parseTimestampCell s = some t) ∧
    (∀ s t, parseOcientTS s = none → parseRFC3339 s = some t →
      parseTimestampCell s = some t) ∧
    (∀ s, parseOcientTS s = none → parseRFC3339 s = none →
      parseTimestampCell s = parseBareTS s) ∧
    classifyValue (.str "2024-01-15 10:30:00.123456789") = ColumnType.timestamp ∧
    parseOcientTS "2024-01-15 10:30:00.123456789" =
      some ⟨2024, 1, 15, 10, 30, 0, 123456789, 0⟩ := by
  refine ⟨?_, ?_, ?_, ?_, by decide, by decide⟩
  · intro s
    rcases hO : parseOcientTS s with _ | t
    · rcases hR : parseRFC3339 s with _ | t
      · rcases hB : parseBareTS s with _ | t <;>
          simp [classifyValue, parseTimestampCell, hO, hR, hB]
      · simp [classifyValue, parseTimestampCell, hO, hR]
    · simp [classifyValue, parseTimestampCell, hO]
  · intro s t h
    simp [parseTimestampCell, h]
  · intro s t h1 h2
    simp [parseTimestampCell, h1, h2]
  · intro s h1 h2
    simp [parseTimestampCell, h1, h2]

/-- Witness for C2: the native-format branch parses the example and
the chain returns its result. -/
theorem timestamp_chain_order_witness :
    parseTimestampCell "2024-01-15 10:30:00.123456789" =
      some ⟨2024, 1, 15, 10, 30, 0, 123456789, 0⟩ :=
  timestamp_chain_order.2.1 "2024-01-15 10:30:00.123456789"
    ⟨2024, 1, 15, 10, 30, 0, 123456789, 0⟩ (by decide)

/-- C3: Column type is determined solely from the first row's value:
every produced field's kind is the classification of the first row's
value for that column (hence fixed for all rows of the RowSet and
independent of later rows), where a textual value matching any
recognized timestamp encoding is Timestamp, a float is Float, a
boolean is Boolean, and every other value (non-timestamp text, null)
is Text. -/
theorem classify_first_row_only :
    (∀ (first : Row) (rest : List Row) (fr : Frame),
      convertToDataFrames (first :: rest) = Except.ok fr →
      ∀ p ∈ fr.fields, colKind p.2 = classifyValue (lookupVal first p.1)) ∧
    (∀ s, ((parseOcientTS s).isSome = true ∨ (parseRFC3339 s).isSome = true ∨
        (parseBareTS s).isSome = true) →
      classifyValue (.str s) = ColumnType.timestamp) ∧
    (∀ s, ¬((parseOcientTS s).isSome = true ∨ (parseRFC3339 s).isSome = true ∨
        (parseBareTS s).isSome = true) →
      classifyValue (.str s) = ColumnType.string) ∧
    (∀ q, classifyValue (.num q) = ColumnType.float64) ∧
    (∀ b, classifyValue (.bool b) = ColumnType.bool) ∧
    classifyValue .null = ColumnType.string := by
  refine ⟨?_, ?_, ?_, fun _ => rfl, fun _ => rfl, rfl⟩
  · intro first rest fr h p hp
    rw [convertToDataFrames_cons] at h
    injection h with h'
    rw [← h'] at hp
    simp only [List.mem_map] at hp
    obtain ⟨col, hcol, rfl⟩ := hp
    simp [colKind_buildColumn]
  · intro s hs
    rcases hO : parseOcientTS s with _ | t
    · rcases hR : parseRFC3339 s with _ | t
      · rcases hB : parseBareTS s with _ | t
        · simp [hO, hR, hB] at hs
        · simp [classifyValue, hO, hR, hB]
      · simp [classifyValue, hO, hR]
    · simp [classifyValue, hO]
  · intro s hs
    rcases hO : parseOcientTS s with _ | t
    · rcases hR : parseRFC3339 s with _ | t
      · rcases hB : parseBareTS s with _ | t
        · simp [classifyValue, hO, hR, hB]
        · exact absurd (Or.inr (Or.inr (by simp [hB]))) hs
      · exact absurd (Or.inr (Or.inl (by simp [hR]))) hs
    · exact absurd (Or.inl (by simp [hO])) hs

/-- Witness for C3: in the demo frame, column `a` carries the kind
classified from the first row's value. -/
theorem classify_first_row_only_witness :
    colKind (ColValues.floats [(1 : ℚ), 0]) =
      classifyValue (lookupVal demoRow1 "a") :=
  classify_first_row_only.1 demoRow1 [demoRow2] demoFrame rfl
    ("a", ColValues.floats [(1 : ℚ), 0]) (by decide)

/-- C4: Every cell of every row is coerced to its column's fixed type
by a total, never-failing policy: non-floats become 0 in a Float
column, non-strings are stringified by the generic formatter in a Text
column, non-booleans become false in a Boolean column, and a Timestamp
cell that is not a string or fails every parse format becomes the zero
instant; the builder never returns an error and every field is the
coercion map over all rows. -/
theorem coercion_total_policy :
    (∀ results : List Row, ∃ fr, convertToDataFrames results = Except.ok fr) ∧
    (∀ v, (∀ q, v ≠ JValue.num q) → coerceFloat v = 0) ∧
    (∀ v, (∀ s, v ≠ JValue.str s) → coerceString v = goFormat v) ∧
    (∀ v, (∀ b, v ≠ JValue.bool b) → coerceBool v = false) ∧
    (∀ s, parseTimestampCell s = none → coerceTimestamp (JValue.str s) = zeroTime) ∧
    (∀ v, (∀ s, v ≠ JValue.str s) → coerceTimestamp v = zeroTime) ∧
    (∀ (first : Row) (rest : List Row) (fr : Frame),
      convertToDataFrames (first :: rest) = Except.ok fr →
      ∀ p ∈ fr.fields,
        p.2 = buildColumn (classifyValue (lookupVal first p.1))
          ((first :: rest).map (fun r => lookupVal r p.1))) := by
  refine ⟨?_, ?_, ?_, ?_, ?_, ?_, ?_⟩
  · intro results
    cases results with
    | nil => exact ⟨_, rfl⟩
    | cons first rest => exact ⟨_, convertToDataFrames_cons first rest⟩
  · intro v hv
    cases v
    case num q => exact absurd rfl (hv q)
    all_goals rfl
  · intro v hv
    cases v
    case str s => exact absurd rfl (hv s)
    all_goals rfl
  · intro v hv
    cases v
    case bool b => exact absurd rfl (hv b)
    all_goals rfl
  · intro s hs
    simp [coerceTimestamp, hs]
  · intro v hv
    cases v
    case str s => exact absurd rfl (hv s)
    all_goals rfl
  · intro first rest fr h p hp
    rw [convertToDataFrames_cons] at h
    injection h with h'
    rw [← h'] at hp
    simp only [List.mem_map] at hp
    obtain ⟨col, hcol, rfl⟩ := hp
    rfl

/-- Witness for C4 at concrete mismatched cells. -/
theorem coercion_total_policy_witness :
    coerceFloat (JValue.str "oops") = 0 ∧
    coerceString (JValue.bool true) = goFormat (JValue.bool true) ∧
    coerceBool JValue.null = false ∧
    coerceTimestamp (JValue.str "not a timestamp") = zeroTime ∧
    coerceTimestamp (JValue.num 7) = zeroTime :=
  ⟨coercion_total_policy.2.1 _ (fun q h => JValue.noConfusion h),
   coercion_total_policy.2.2.1 _ (fun s h => JValue.noConfusion h),
   coercion_total_policy.2.2.2.1 _ (fun b h => JValue.noConfusion h),
   coercion_total_policy.2.2.2.2.1 "not a timestamp" (by decide),
   coercion_total_policy.2.2.2.2.2.1 _ (fun s h => JValue.noConfusion h)⟩

/-- C5: An empty RowSet yields the empty, columnless `response` frame
and no error. -/
theorem convert_empty_frame :
    convertToDataFrames ([] : List Row) = Except.ok ⟨"response", []⟩ := rfl

/-- A concrete failing response used by the C8 witness. -/
def demoFailResp : CollectionResponse :=
  ⟨"q-1", ⟨"syntax error", "42000", 123⟩, [[("a", .num 1)]]⟩

/-- C8: The query executor treats a response as successful exactly
when its SQL state is `"00000"`; any other state yields an error
outcome carrying the remote status (reason, sql_state, vendor code)
unchanged together with an empty RowSet. -/
theorem executeQuery_status_check :
    (∀ resp : CollectionResponse,
      (executeQueryOutcome resp).errMsg = none ↔
        resp.status.sql_state = "00000") ∧
    (∀ resp : CollectionResponse, resp.status.sql_state = "00000" →
      executeQueryOutcome resp = ⟨resp.data, resp.status, none⟩) ∧
    (∀ resp : CollectionResponse, resp.status.sql_state ≠ "00000" →
      executeQueryOutcome resp =
        ⟨[], resp.status, some (execErrorMsg resp.status)⟩) := by
  refine ⟨?_, ?_, ?_⟩
  · intro resp
    by_cases h : resp.status.sql_state = "00000"
    · simp [executeQueryOutcome, h]
    · simp [executeQueryOutcome, h]
  · intro resp h
    simp [executeQueryOutcome, h]
  · intro resp h
    simp [executeQueryOutcome, h]

/-- Witness for C8 at a concrete failing response. -/
theorem executeQuery_status_check_witness :
    executeQueryOutcome demoFailResp =
      ⟨[], demoFailResp.status, some (execErrorMsg demoFailResp.status)⟩ :=
  executeQuery_status_check.2.2 demoFailResp (by decide)

/-- C9: Query assembly is pure string concatenation following the spec
template: an empty selection yields the wildcard, each WHERE clause
renders as `column operator 'value'` and clauses join with ` AND `, an
optional time-series column appends the time-range bounds and the
`ORDER BY ... ASC` tail as a final AND-joined clause; and the concrete
example produces exactly `SELECT * FROM s.t WHERE x = '5'`. -/
theorem buildQuery_template :
    (∀ (s t : String) (wcs : List WhereClause), s ≠ "" → t ≠ "" →
      buildQuery s t [] wcs "" = some
        (if wcs = [] then "SELECT " ++ "*" ++ " FROM " ++ s ++ "." ++ t
         else "SELECT " ++ "*" ++ " FROM " ++ s ++ "." ++ t ++ " WHERE " ++
           String.intercalate " AND " (wcs.map renderWhereClause))) ∧
    (∀ c : WhereClause,
      renderWhereClause c =
        c.column ++ " " ++ c.operator ++ " '" ++ c.value ++ "'") ∧
    (∀ (s t : String) (cols : List String) (wcs : List WhereClause)
        (ts : String), s ≠ "" → t ≠ "" → ts ≠ "" →
      buildQuery s t cols wcs ts = some
        ("SELECT " ++
          (if cols.length > 0 then String.intercalate ", " cols else "*") ++
          " FROM " ++ s ++ "." ++ t ++ " WHERE " ++
          String.intercalate " AND "
            (wcs.map renderWhereClause ++ [timeFilterClause ts]))) ∧
    buildQuery "s" "t" [] [⟨"x", "=", "5"⟩] "" =
      some "SELECT * FROM s.t WHERE x = '5'" := by
  refine ⟨?_, fun _ => rfl, ?_, by decide⟩
  · intro s t wcs hs ht
    cases wcs with
    | nil => simp [buildQuery, hs, ht]
    | cons c cs => simp [buildQuery, hs, ht]
  · intro s t cols wcs ts hs ht hts
    cases cols with
    | nil => simp [buildQuery, hs, ht, hts]
    | cons c cs => simp [buildQuery, hs, ht, hts]

/-- Witness for C9 with selected columns, a clause and a time-series
column. -/
theorem buildQuery_template_witness :
    buildQuery "s" "t" ["a", "b"] [⟨"x", "=", "5"⟩] "tscol" = some
      ("SELECT " ++
        (if (["a", "b"] : List String).length > 0 then
          String.intercalate ", " ["a", "b"] else "*") ++
        " FROM " ++ "s" ++ "." ++ "t" ++ " WHERE " ++
        String.intercalate " AND "
          (([⟨"x", "=", "5"⟩] : List WhereClause).map renderWhereClause ++
            [timeFilterClause "tscol"])) :=
  buildQuery_template.2.2.1 "s" "t" ["a", "b"] [⟨"x", "=", "5"⟩] "tscol"
    (by decide) (by decide) (by decide)

/-- The issued-query log of the count helper: nothing for empty
arguments, exactly the count query otherwise, whatever the executor
answers. -/
theorem getDistinctValueCount_issued (exec : Exec) (s t c : String) :
    (getDistinctValueCount exec s t c).2 =
      if s = "" ∨ t = "" ∨ c = "" then [] else [countQueryText s t c] := by
  by_cases hg : s = "" ∨ t = "" ∨ c = ""
  · simp [getDistinctValueCount, hg]
  · simp only [getDistinctValueCount]
    rw [if_neg hg, if_neg hg]
    rcases hq : exec (countQueryText s t c) with e | frames
    · simp [hq]
    · rcases frames with _ | ⟨frame, frs⟩
      · simp [hq]
      · rcases frame with ⟨flds⟩
        rcases flds with _ | ⟨fld, fs⟩
        · simp [hq]
        · rcases fld with ⟨fname, fvals⟩
          rcases fvals with _ | ⟨v, vs⟩
          · simp [hq]
          · rcases v with q | sv | bv | _ <;> simp [hq]

/-- `natLtRat` agrees with the ordered-field comparison after
casting. -/
theorem natLtRat_iff (n : Nat) (q : ℚ) :
    natLtRat n q = true ↔ (n : ℚ) < q := by
  unfold natLtRat
  rw [decide_eq_true_eq]
  rw [show ((n : ℚ) < q ↔ (n : ℚ) < (q.num : ℚ) / (q.den : ℚ)) from by
    rw [Rat.num_div_den]]
  rw [lt_div_iff₀ (by exact_mod_cast q.pos)]
  constructor <;> intro h <;> exact_mod_cast h

/-- Browsing options with a concrete limit and offset. -/
def browseOpts (limit offset : Nat) : Option BrowseOptions :=
  some ⟨some limit, some offset, none⟩

/-- Modelled from the spec: the remote execute endpoint over a table
whose column `c` holds exactly 150 qualifying distinct non-null
values; the count query answers 150 and the value query answers the
ordered slice selected by LIMIT/OFFSET. -/
def distinct150 : List JValue :=
  (List.range 150).map (fun i => JValue.str (toString i))

/-- Modelled from the spec: executor for the 150-value table. -/
def mockExec150 : Exec := fun q =>
  if q = countQueryText "s" "t" "c" then
    .ok [⟨[⟨"value_count", [.num 150]⟩]⟩]
  else if q = valueQueryText "s" "t" "c" 100 0 "" then
    .ok [⟨[⟨"c", distinct150.take 100⟩]⟩]
  else if q = valueQueryText "s" "t" "c" 100 100 "" then
    .ok [⟨[⟨"c", distinct150.drop 100⟩]⟩]
  else .error "unexpected query"

/-- C6: Every successful browsing request satisfies
`hasMore = (offset + values.length < totalCount)`; against a table
with exactly 150 qualifying distinct non-null values, limit 100 and
offset 0 return 100 values with `hasMore` true, and offset 100
returns 50 values with `hasMore` false. -/
theorem hasMore_pagination :
    (∀ (exec : Exec) (s t c : String) (opts : Option BrowseOptions)
        (field : TSField) (fs : List TSField) (frs : List TSFrame),
      s ≠ "" → t ≠ "" → c ≠ "" →
      exec (valueQueryText s t c (effLimit opts) (effOffset opts)
        (effPattern opts)) = .ok (⟨field :: fs⟩ :: frs) →
      ((getDistinctColumnValues exec s t c opts).page.hasMore = true ↔
        ((effOffset opts : ℚ) +
          (getDistinctColumnValues exec s t c opts).page.values.length <
          (getDistinctColumnValues exec s t c opts).page.totalCount))) ∧
    ((getDistinctColumnValues mockExec150 "s" "t" "c"
        (browseOpts 100 0)).page.values.length = 100 ∧
      (getDistinctColumnValues mockExec150 "s" "t" "c"
        (browseOpts 100 0)).page.totalCount = 150 ∧
      (getDistinctColumnValues mockExec150 "s" "t" "c"
        (browseOpts 100 0)).page.hasMore = true) ∧
    ((getDistinctColumnValues mockExec150 "s" "t" "c"
        (browseOpts 100 100)).page.values.length = 50 ∧
      (getDistinctColumnValues mockExec150 "s" "t" "c"
        (browseOpts 100 100)).page.totalCount = 150 ∧
      (getDistinctColumnValues mockExec150 "s" "t" "c"
        (browseOpts 100 100)).page.hasMore = false) := by
  refine ⟨?_, by decide, by decide⟩
  intro exec s t c opts field fs frs hs ht hc hexec
  simp only [getDistinctColumnValues, hs, ht, hc, false_or, if_false]
  simp only [hexec]
  simp only [List.length_map]
  rw [natLtRat_iff, Nat.cast_add]

/-- Witness for C6: the universal part applied to the 150-value
table's first page. -/
theorem hasMore_pagination_witness :
    (getDistinctColumnValues mockExec150 "s" "t" "c"
        (browseOpts 100 0)).page.hasMore = true ↔
      ((effOffset (browseOpts 100 0) : ℚ) +
        (getDistinctColumnValues mockExec150 "s" "t" "c"
          (browseOpts 100 0)).page.values.length <
        (getDistinctColumnValues mockExec150 "s" "t" "c"
          (browseOpts 100 0)).page.totalCount) :=
  hasMore_pagination.1 mockExec150 "s" "t" "c" (browseOpts 100 0)
    ⟨"c", distinct150.take 100⟩ [] [] (by decide) (by decide) (by decide) rfl

/-- C7: The search filter is applied only to the value query — as a
case-insensitive substring match on the column cast to text — never to
the count query, so the returned page's totalCount always comes from
the unfiltered count helper and is identical for any two search
patterns. -/
theorem totalCount_unfiltered :
    (∀ (exec : Exec) (s t c : String) (opts : Option BrowseOptions),
      (getDistinctColumnValues exec s t c opts).page.totalCount =
        (getDistinctValueCount exec s t c).1) ∧
    (∀ (exec : Exec) (s t c : String) (lim off : Option Nat)
        (p p' : Option String),
      (getDistinctColumnValues exec s t c (some ⟨lim, off, p⟩)).page.totalCount =
        (getDistinctColumnValues exec s t c
          (some ⟨lim, off, p'⟩)).page.totalCount) ∧
    (∀ s t c : String, countQueryText s t c =
      "SELECT COUNT(DISTINCT " ++ c ++ ") AS value_count FROM " ++ s ++ "." ++
        t ++ " WHERE " ++ c ++ " IS NOT NULL") ∧
    (∀ (s t c : String) (lim off : Nat) (p : String), p ≠ "" →
      valueQueryText s t c lim off p =
        "SELECT DISTINCT " ++ c ++ " \n                     FROM " ++ s ++
          "." ++ t ++ " \n                     WHERE " ++ c ++
          " IS NOT NULL" ++
          (" AND LOWER(CAST(" ++ c ++ " AS VARCHAR)) LIKE LOWER('%" ++ p ++
            "%')") ++
          " ORDER BY " ++ c ++ " ASC \n                  LIMIT " ++
          toString lim ++ " OFFSET " ++ toString off) := by
  have key : ∀ (exec : Exec) (s t c : String) (opts : Option BrowseOptions),
      (getDistinctColumnValues exec s t c opts).page.totalCount =
        (getDistinctValueCount exec s t c).1 := by
    intro exec s t c opts
    by_cases hg : s = "" ∨ t = "" ∨ c = ""
    · simp [getDistinctColumnValues, getDistinctValueCount, hg]
    · simp only [getDistinctColumnValues]
      rw [if_neg hg]
      rcases hq : exec (valueQueryText s t c (effLimit opts) (effOffset opts)
          (effPattern opts)) with e | frames
      · simp [hq]
      · rcases frames with _ | ⟨frame, frs⟩
        · simp [hq]
        · rcases frame with ⟨flds⟩
          rcases flds with _ | ⟨fld, fs⟩
          · simp [hq]
          · simp [hq]
  refine ⟨key, fun exec s t c lim off p p' => by rw [key, key], fun s t c => rfl, ?_⟩
  intro s t c lim off p hp
  simp [valueQueryText, hp]

/-- Witness for C7: the filtered value query text at a concrete
pattern. -/
theorem totalCount_unfiltered_witness :
    valueQueryText "s" "t" "c" 100 0 "abc" =
      "SELECT DISTINCT " ++ "c" ++ " \n                     FROM " ++ "s" ++
        "." ++ "t" ++ " \n                     WHERE " ++ "c" ++
        " IS NOT NULL" ++
        (" AND LOWER(CAST(" ++ "c" ++ " AS VARCHAR)) LIKE LOWER('%" ++
          "abc" ++ "%')") ++
        " ORDER BY " ++ "c" ++ " ASC \n                  LIMIT " ++
        toString 100 ++ " OFFSET " ++ toString 0 :=
  totalCount_unfiltered.2.2.2 "s" "t" "c" 100 0 "abc" (by decide)

/-- Modelled from the spec: an executor whose count query fails while
the value query still succeeds with two values. -/
def mockCountFail : Exec := fun q =>
  if q = valueQueryText "s" "t" "c" 100 0 "" then
    .ok [⟨[⟨"c", [.str "a", .str "b"]⟩]⟩]
  else .error "count query failed"

/-- C10: A failed count sub-query (or a non-numeric first cell) makes
the count helper return 0 instead of propagating the error; the
browsing request still issues the value query, and the page then has
totalCount 0 and hasMore false while values may be non-empty; empty
schema, table or column short-circuits to the empty page without
issuing any query. -/
theorem count_failure_policy :
    (∀ (exec : Exec) (s t c : String) (opts : Option BrowseOptions),
      (s = "" ∨ t = "" ∨ c = "") →
      getDistinctColumnValues exec s t c opts = ⟨⟨[], 0, false⟩, []⟩) ∧
    (∀ (exec : Exec) (s t c e : String), s ≠ "" → t ≠ "" → c ≠ "" →
      exec (countQueryText s t c) = .error e →
      getDistinctValueCount exec s t c = (0, [countQueryText s t c])) ∧
    (∀ (exec : Exec) (s t c : String) (fname : String) (vs : List JValue)
        (v : JValue) (fs : List TSField) (frs : List TSFrame),
      s ≠ "" → t ≠ "" → c ≠ "" →
      exec (countQueryText s t c) = .ok (⟨⟨fname, v :: vs⟩ :: fs⟩ :: frs) →
      (∀ q, v ≠ JValue.num q) →
      getDistinctValueCount exec s t c = (0, [countQueryText s t c])) ∧
    (∀ (exec : Exec) (s t c : String), s ≠ "" → t ≠ "" → c ≠ "" →
      (getDistinctValueCount exec s t c).2 = [countQueryText s t c]) ∧
    (∀ (exec : Exec) (s t c : String) (opts : Option BrowseOptions),
      s ≠ "" → t ≠ "" → c ≠ "" →
      (getDistinctColumnValues exec s t c opts).issued =
        (getDistinctValueCount exec s t c).2 ++
          [valueQueryText s t c (effLimit opts) (effOffset opts)
            (effPattern opts)]) ∧
    (∀ (exec : Exec) (s t c : String) (opts : Option BrowseOptions),
      (getDistinctValueCount exec s t c).1 = 0 →
      (getDistinctColumnValues exec s t c opts).page.hasMore = false) ∧
    ((getDistinctColumnValues mockCountFail "s" "t" "c" none).page =
      ⟨["a", "b"], 0, false⟩ ∧
     (getDistinctColumnValues mockCountFail "s" "t" "c" none).issued =
      [countQueryText "s" "t" "c", valueQueryText "s" "t" "c" 100 0 ""]) := by
  refine ⟨?_, ?_, ?_, ?_, ?_, ?_, by decide⟩
  · intro exec s t c opts h
    simp [getDistinctColumnValues, h]
  · intro exec s t c e hs ht hc hexec
    simp only [getDistinctValueCount]
    rw [if_neg (by simp [hs, ht, hc])]
    simp [hexec]
  · intro exec s t c fname vs v fs frs hs ht hc hexec hv
    simp only [getDistinctValueCount]
    rw [if_neg (by simp [hs, ht, hc])]
    rcases v with q | sv | bv | _
    · exact absurd rfl (hv q)
    · simp [hexec]
    · simp [hexec]
    · simp [hexec]
  · intro exec s t c hs ht hc
    rw [getDistinctValueCount_issued]
    rw [if_neg (by simp [hs, ht, hc])]
  · intro exec s t c opts hs ht hc
    simp only [getDistinctColumnValues]
    rw [if_neg (by simp [hs, ht, hc])]
    rcases hq : exec (valueQueryText s t c (effLimit opts) (effOffset opts)
        (effPattern opts)) with e | frames
    · simp [hq]
    · rcases frames with _ | ⟨frame, frs⟩
      · simp [hq]
      · rcases frame with ⟨flds⟩
        rcases flds with _ | ⟨fld, fs⟩
        · simp [hq]
        · simp [hq]
  · intro exec s t c opts h0
    by_cases hg : s = "" ∨ t = "" ∨ c = ""
    · simp [getDistinctColumnValues, hg]
    · simp only [getDistinctColumnValues]
      rw [if_neg hg]
      rcases hq : exec (valueQueryText s t c (effLimit opts) (effOffset opts)
          (effPattern opts)) with e | frames
      · simp [hq]
      · rcases frames with _ | ⟨frame, frs⟩
        · simp [hq]
        · rcases frame with ⟨flds⟩
          rcases flds with _ | ⟨fld, fs⟩
          · simp [hq]
          · simp only [hq, h0]
            rw [natLtRat]
            simp
            omega

/-- Witness for C10: the count helper returns 0 with only the count
query issued when the executor rejects the count query. -/
theorem count_failure_policy_witness :
    getDistinctValueCount mockCountFail "s" "t" "c" =
      (0, [countQueryText "s" "t" "c"]) :=
  count_failure_policy.2.1 mockCountFail "s" "t" "c" "count query failed"
    (by decide) (by decide) (by decide) rfl
